import Mathlib

/-!
Verification development for the ReVita post-discharge recovery decision
engine.  The Python decision logic (risk cascade, complication scoring,
pain-pattern analysis, recovery-days estimation, rehab-plan selection,
recovery scoring, alert rules, feature encoding) is shallowly embedded
below: rationals stand for Python floats, integers for Python ints, and
`String` for the categorical report fields.  Python `round(x, 1)` is
modelled as round-half-up to one decimal and `int(x)` as truncation
toward zero.
-/

namespace ReVita

/-- Rounding a rational to one decimal place, modelling Python `round(x, 1)`
(half-integer tenths round up in this model; the scores below are exact
multiples of one tenth, so the tie-breaking direction is immaterial). -/
def pyRound1 (q : ℚ) : ℚ := (round (q * 10) : ℤ) / 10

/-- Truncation toward zero, modelling Python `int(x)` applied to a float. -/
def pyTrunc (q : ℚ) : ℤ := if 0 ≤ q then ⌊q⌋ else -⌊-q⌋

/-- One day's symptom log entry, as the subset of the stored log dict read by
`get_recovery_score`, `check_alerts` and `analyze_pain_pattern`. -/
structure LogEntry where
  pain_score : ℤ
  mobility : ℤ
  fever : ℚ
  swelling : String
deriving Repr, DecidableEq

/-- Input features of `calculate_complication_probability`
(src/ml/ai_features.py). -/
structure DayFeatures where
  pain_score : ℤ
  fever : ℚ
  swelling : String
  wound_status : String
  pain_trend : String
  mobility : ℤ
  medication_adherence : ℤ
deriving Repr, DecidableEq

/-- Result of the complication-probability engine (probability score and
risk category; the color and advice strings are presentational companions
of the category and are not modelled). -/
structure ComplicationResult where
  probability : ℚ
  category : String
deriving Repr, DecidableEq

/-- Swelling contribution table `sw` of `calculate_complication_probability`. -/
def swellingContribution : List (String × ℚ) :=
  [("None", 0), ("Mild", 5), ("Moderate", 10), ("Severe", 15)]

/-- Wound contribution table `wnd` of `calculate_complication_probability`. -/
def woundContribution : List (String × ℚ) :=
  [("Clean/Healing", 0), ("Redness", 8), ("Discharge/Open", 15)]

/-- Embedding of `calculate_complication_probability` (src/ml/ai_features.py,
lines 81-153): additive score accumulation, clamp to [0,100] after rounding
to one decimal, then the category if-chain. -/
def calculate_complication_probability (f : DayFeatures) : ComplicationResult :=
  let score : ℚ := 0
  let score := score + (f.pain_score : ℚ) / 10 * 25
  let score :=
    if f.fever ≥ 103 then score + 25
    else if f.fever ≥ 101.5 then score + 20
    else if f.fever ≥ 100.4 then score + 12
    else if f.fever ≥ 99.5 then score + 5
    else score
  let score := score + ((swellingContribution.lookup f.swelling).getD 0)
  let score := score + ((woundContribution.lookup f.wound_status).getD 0)
  let score :=
    if f.pain_trend = "Worsening" then score + 10
    else if f.pain_trend = "Stable" then score + 2
    else score
  let score := if f.mobility ≤ 2 then score + 5 else score
  let score := score - (f.medication_adherence : ℚ) / 10 * 8
  let score := max 0 (min 100 (pyRound1 score))
  if score < 20 then ⟨score, "Very Low"⟩
  else if score < 40 then ⟨score, "Low"⟩
  else if score < 60 then ⟨score, "Moderate"⟩
  else if score < 80 then ⟨score, "High"⟩
  else ⟨score, "Critical"⟩

/-- Fever step of the additive complication formula as the spec states it:
≥103 gives 25, ≥101.5 gives 20, ≥100.4 gives 12, ≥99.5 gives 5, else 0. -/
def feverStepSpec (fever : ℚ) : ℚ :=
  if fever ≥ 103 then 25
  else if fever ≥ 101.5 then 20
  else if fever ≥ 100.4 then 12
  else if fever ≥ 99.5 then 5
  else 0

/-- Swelling step of the additive complication formula as the spec states it
(None 0 / Mild 5 / Moderate 10 / Severe 15). -/
def swellingStepSpec (s : String) : ℚ :=
  if s = "None" then 0
  else if s = "Mild" then 5
  else if s = "Moderate" then 10
  else if s = "Severe" then 15
  else 0

/-- Wound step of the additive complication formula as the spec states it
(Clean/Healing 0 / Redness 8 / Discharge/Open 15). -/
def woundStepSpec (w : String) : ℚ :=
  if w = "Clean/Healing" then 0
  else if w = "Redness" then 8
  else if w = "Discharge/Open" then 15
  else 0

/-- Pain-trend step of the additive complication formula as the spec states
it (Worsening 10 / Stable 2 / Improving 0). -/
def trendStepSpec (t : String) : ℚ :=
  if t = "Worsening" then 10
  else if t = "Stable" then 2
  else 0

/-- Complication score written as the spec's single additive formula, then
clamped to [0,100] and rounded to one decimal. -/
def complicationScoreSpec (f : DayFeatures) : ℚ :=
  max 0 (min 100 (pyRound1
    ((f.pain_score : ℚ) / 10 * 25 + feverStepSpec f.fever
      + swellingStepSpec f.swelling + woundStepSpec f.wound_status
      + trendStepSpec f.pain_trend
      + (if f.mobility ≤ 2 then 5 else 0)
      - (f.medication_adherence : ℚ) / 10 * 8)))

/-- Category boundaries of the complication score as the spec states them:
<20 Very Low, <40 Low, <60 Moderate, <80 High, ≥80 Critical. -/
def complicationCategorySpec (score : ℚ) : String :=
  if score < 20 then "Very Low"
  else if score < 40 then "Low"
  else if score < 60 then "Moderate"
  else if score < 80 then "High"
  else "Critical"

/-- Embedding of `get_recovery_score` (src/ml/rehab_engine.py, lines
191-223): 0 for an empty history, the single-entry baseline-50 formula for
one entry, and the first-vs-latest baseline-40 comparison otherwise. -/
def get_recovery_score (logs : List LogEntry) : ℚ :=
  match logs with
  | [] => 0
  | [entry] =>
      let score : ℚ := 50
      let score := score + ((10 : ℚ) - (entry.pain_score : ℚ)) * 3
      let score := score + (entry.mobility : ℚ) * 2
      min (max (pyRound1 score) 0) 100
  | first :: b :: t =>
      let latest := (b :: t).getLast (List.cons_ne_nil b t)
      let pain_improvement : ℚ := (first.pain_score : ℚ) - (latest.pain_score : ℚ)
      let mobility_improvement : ℚ := (latest.mobility : ℚ) - (first.mobility : ℚ)
      let score : ℚ := 40
      let score := score + pain_improvement * 5
      let score := score + mobility_improvement * 3
      let score := if latest.fever ≥ 100.4 then score - 15 else score
      let score :=
        if latest.swelling ∈ (["Moderate", "Severe"] : List String) then score - 10
        else score
      min (max (pyRound1 score) 0) 100

/-- Recovery score as the spec's piecewise reference definition: empty
history 0; one entry 50 + 3·(10 − pain) + 2·mobility clamped to [0,100];
two or more entries 40 + 5·(first.pain − latest.pain) + 3·(latest.mobility
− first.mobility) minus the fever and swelling penalties, clamped to
[0,100] and rounded to one decimal. -/
def recoveryScoreSpec (logs : List LogEntry) : ℚ :=
  match logs with
  | [] => 0
  | [e] =>
      min (max (((50 + 3 * (10 - e.pain_score) + 2 * e.mobility : ℤ) : ℚ)) 0) 100
  | first :: b :: t =>
      let latest := (b :: t).getLast (List.cons_ne_nil b t)
      min (max (pyRound1
        (40 + 5 * ((first.pain_score : ℚ) - (latest.pain_score : ℚ))
          + 3 * ((latest.mobility : ℚ) - (first.mobility : ℚ))
          - (if 100.4 ≤ latest.fever then 15 else 0)
          - (if latest.swelling = "Moderate" ∨ latest.swelling = "Severe" then 10 else 0))) 0) 100

/-- Result of the pain-pattern analyzer (pattern label and trend label; the
icon, color, description and recommendation strings are presentational
companions of the pattern and are not modelled). -/
structure PainPatternResult where
  pattern : String
  trend : String
deriving Repr, DecidableEq

/-- Embedding of `analyze_pain_pattern` (src/ml/ai_features.py, lines
159-246): take the last at most 7 pain scores, compute the trend
difference and the step-direction counts, and classify by the first
matching rule. -/
def analyze_pain_pattern (logs : List LogEntry) : PainPatternResult :=
  if logs.length < 2 then ⟨"Insufficient Data", "unknown"⟩
  else
    let pain_scores := (logs.drop (logs.length - 7)).map (fun l => l.pain_score)
    let trend_diff : ℚ :=
      if 3 ≤ pain_scores.length then
        ((pain_scores.drop (pain_scores.length - 3)).sum : ℚ) / 3
          - ((pain_scores.take 3).sum : ℚ) / 3
      else ((pain_scores.getLast?.getD 0 : ℤ) : ℚ) - ((pain_scores.head?.getD 0 : ℤ) : ℚ)
    let diffs := List.zipWith (fun a b => a - b) pain_scores.tail pain_scores
    let increasing := diffs.countP (fun d => decide (0 < d))
    let decreasing := diffs.countP (fun d => decide (d < 0))
    let stable := diffs.countP (fun d => decide (d = 0))
    if trend_diff ≤ -2 ∧ increasing ≤ decreasing then ⟨"Steady Improvement", "improving"⟩
    else if 2 ≤ trend_diff ∧ decreasing ≤ increasing then ⟨"Worsening Trend", "worsening"⟩
    else if |trend_diff| ≤ 1 ∧ 2 ≤ stable then ⟨"Plateau", "stable"⟩
    else if 0 < increasing ∧ 0 < decreasing then ⟨"Fluctuating", "fluctuating"⟩
    else ⟨"Early Recovery", "early"⟩

/-- Pain-pattern classification written from the spec's rule list, applied
to a history of at least two entries: trend_diff is (mean of last 3) −
(mean of first 3) when at least three points exist and (last − first)
otherwise; steps are counted over consecutive differences; the first
matching rule in the stated priority order decides the pattern. -/
def painPatternSpec (logs : List LogEntry) : PainPatternResult :=
  let pains := (logs.map (fun l => l.pain_score)).drop (logs.length - 7)
  let n := pains.length
  let trend_diff : ℚ :=
    if 3 ≤ n then
      ((pains.drop (n - 3)).sum : ℚ) / 3 - ((pains.take 3).sum : ℚ) / 3
    else ((pains.getLast?.getD 0 : ℤ) : ℚ) - ((pains.head?.getD 0 : ℤ) : ℚ)
  let steps := List.zipWith (fun a b => b - a) pains pains.tail
  let up := (steps.filter (fun d => decide (0 < d))).length
  let down := (steps.filter (fun d => decide (d < 0))).length
  let flat := (steps.filter (fun d => decide (d = 0))).length
  if trend_diff ≤ -2 ∧ up ≤ down then ⟨"Steady Improvement", "improving"⟩
  else if 2 ≤ trend_diff ∧ down ≤ up then ⟨"Worsening Trend", "worsening"⟩
  else if |trend_diff| ≤ 1 ∧ 2 ≤ flat then ⟨"Plateau", "stable"⟩
  else if 0 < up ∧ 0 < down then ⟨"Fluctuating", "fluctuating"⟩
  else ⟨"Early Recovery", "early"⟩

/-- Pathway baseline table `RECOVERY_BASE_DAYS` (src/ml/ai_features.py). -/
def RECOVERY_BASE_DAYS : List (String × ℤ) :=
  [("Minor Surgery", 14), ("Orthopedic Surgery", 60), ("General Discharge", 21),
   ("Injury Recovery", 30), ("Stroke Rehab", 90)]

/-- Risk multiplier table of `predict_recovery_days`. -/
def riskMultiplierTable : List (String × ℚ) :=
  [("Low", 1.0), ("Moderate", 1.3), ("High", 1.6), ("Critical", 2.0)]

/-- Result record of the recovery-days estimator (the
`expected_recovery_date` field depends on the wall clock and is not
modelled). -/
structure RecoveryPrediction where
  estimated_total_days : ℤ
  days_completed : ℤ
  days_remaining : ℤ
  progress_pct : ℚ
  milestone : String
deriving Repr, DecidableEq

/-- Embedding of `predict_recovery_days` (src/ml/ai_features.py, lines
23-69): baseline times risk multiplier times pain factor times mobility
factor truncated to an integer, remaining days, guarded progress
percentage, and the milestone if-chain. -/
def predict_recovery_days (surgery_type risk_level : String)
    (days_post pain_score mobility : ℤ) : RecoveryPrediction :=
  let base : ℤ := (RECOVERY_BASE_DAYS.lookup surgery_type).getD 30
  let multiplier : ℚ := (riskMultiplierTable.lookup risk_level).getD 1.0
  let pain_factor : ℚ := 1 + ((pain_score : ℚ) / 10) * 0.5
  let mobility_factor : ℚ := 1 - ((mobility : ℚ) / 10) * 0.3
  let estimated_total : ℤ := pyTrunc ((base : ℚ) * multiplier * pain_factor * mobility_factor)
  let remaining : ℤ := max 0 (estimated_total - days_post)
  let progress_pct : ℚ :=
    if 0 < estimated_total then
      min 100 (pyRound1 (((days_post : ℚ) / (estimated_total : ℚ)) * 100))
    else 100
  let milestone : String :=
    if progress_pct ≥ 90 then "🎉 Almost fully recovered!"
    else if progress_pct ≥ 70 then "💪 Great progress — final stretch!"
    else if progress_pct ≥ 50 then "📈 Halfway there — keep going!"
    else if progress_pct ≥ 25 then "🌱 Early recovery — stay consistent!"
    else "🏥 Just started — follow your plan carefully."
  ⟨estimated_total, days_post, remaining, progress_pct, milestone⟩

/-- Estimated-total formula as the spec states it: pathway baseline × risk
multiplier × (1 + pain/10 × 0.5) × (1 − mobility/10 × 0.3), truncated to an
integer. -/
def estimatedTotalSpec (surgery_type risk_level : String)
    (pain_score mobility : ℤ) : ℤ :=
  pyTrunc ((((RECOVERY_BASE_DAYS.lookup surgery_type).getD 30 : ℤ) : ℚ)
    * (riskMultiplierTable.lookup risk_level).getD 1.0
    * (1 + ((pain_score : ℚ) / 10) * 0.5)
    * (1 - ((mobility : ℚ) / 10) * 0.3))

/-- Milestone selection as the spec states it, by the fixed progress
breakpoints 90/70/50/25. -/
def milestoneSpec (progress_pct : ℚ) : String :=
  if 90 ≤ progress_pct then "🎉 Almost fully recovered!"
  else if 70 ≤ progress_pct then "💪 Great progress — final stretch!"
  else if 50 ≤ progress_pct then "📈 Halfway there — keep going!"
  else if 25 ≤ progress_pct then "🌱 Early recovery — stay consistent!"
  else "🏥 Just started — follow your plan carefully."

/-- One cell of the static rehab-plan table: exercises, restrictions and a
goal line. -/
structure PlanCell where
  exercises : List String
  restrictions : List String
  goals : String
deriving Repr, DecidableEq

/-- Rehab plan returned by the selector: the chosen table cell overlaid
with the recovery phase and its note. -/
structure RehabPlan where
  exercises : List String
  restrictions : List String
  goals : String
  recovery_phase : String
  phase_note : String
deriving Repr, DecidableEq

/-- Per-risk plans of the "Minor Surgery" pathway (src/ml/rehab_engine.py). -/
def minorSurgeryPlans : List (String × PlanCell) :=
  [("Low", ⟨["Deep breathing exercises — 10 reps × 3 sets",
             "Gentle ankle circles — 15 reps each side",
             "Seated leg raises — 10 reps × 2 sets",
             "Short walks (5-10 minutes) twice daily"],
            ["Avoid heavy lifting > 5kg", "No strenuous activity"],
            "Regain baseline mobility within 1–2 weeks"⟩),
   ("Moderate", ⟨["Bed-based breathing exercises only",
                  "Gentle foot pumps — 20 reps hourly",
                  "Passive range of motion with assistance"],
                 ["Rest primarily", "Elevate affected area", "Ice packs 20min every 2hrs"],
                 "Reduce inflammation before progressing"⟩),
   ("High", ⟨["Rest only — consult physiotherapist before any exercise"],
             ["Strict rest", "No movement of affected area without guidance"],
             "Stabilize condition — contact your doctor"⟩),
   ("Critical", ⟨["STOP all exercise — seek emergency medical attention"],
                 ["Immediate medical consultation required"],
                 "Emergency evaluation needed"⟩)]

/-- Per-risk plans of the "Orthopedic Surgery" pathway. -/
def orthopedicSurgeryPlans : List (String × PlanCell) :=
  [("Low", ⟨["Quadriceps sets — 10 reps × 3 sets",
             "Straight leg raises — 10 reps × 3 sets",
             "Heel slides — 15 reps × 2 sets",
             "Standing balance (with support) — 30 sec × 3",
             "Stair climbing practice with railing"],
            ["Weight bear as tolerated", "No deep bending > 90°",
             "Use walker/crutches as prescribed"],
            "Restore joint range of motion and strength"⟩),
   ("Moderate", ⟨["Isometric quad contractions only",
                  "Ankle pumps — 20 reps every hour",
                  "Gentle ROM within pain-free range only"],
                 ["Elevate limb", "Ice 20min/2hrs", "Limit weight bearing"],
                 "Control pain and swelling before progressing"⟩),
   ("High", ⟨["Pause exercise program — reassess with physiotherapist"],
             ["Non-weight bearing", "Splint/brace if available"],
             "Medical review required within 24 hours"⟩),
   ("Critical", ⟨["IMMEDIATE medical attention required"],
                 ["Call emergency services or go to ER"],
                 "Possible complication — do not delay"⟩)]

/-- Per-risk plans of the "General Discharge" pathway, also the designated
fallback for an unknown pathway. -/
def generalDischargePlans : List (String × PlanCell) :=
  [("Low", ⟨["Breathing exercises — 5 min, 3× daily",
             "Gentle walks increasing by 5 min each day",
             "Light stretching of major muscle groups",
             "Posture correction exercises"],
            ["Avoid fatigue", "Stay hydrated", "Follow dietary guidelines"],
            "Gradual return to daily activities over 2–4 weeks"⟩),
   ("Moderate", ⟨["Seated breathing exercises only",
                  "Gentle range of motion while seated"],
                 ["Rest primarily", "Monitor vitals", "Increase fluids"],
                 "Stabilize and monitor closely"⟩),
   ("High", ⟨["Bed rest — no exercise"],
             ["Contact primary care physician today"],
             "Urgent medical review"⟩),
   ("Critical", ⟨["Seek emergency care immediately"],
                 ["Call ambulance or go to nearest ER"],
                 "Emergency evaluation"⟩)]

/-- Per-risk plans of the "Injury Recovery" pathway. -/
def injuryRecoveryPlans : List (String × PlanCell) :=
  [("Low", ⟨["RICE protocol (Rest, Ice, Compression, Elevation)",
             "Gentle ROM exercises within pain-free range",
             "Progressive strengthening — resistance band exercises",
             "Proprioception training — balance board (week 2+)"],
            ["Avoid re-injury", "Tape/brace support", "Gradual return to sport"],
            "Full functional recovery in 3–8 weeks"⟩),
   ("Moderate", ⟨["Continue RICE protocol",
                  "Gentle stretching only",
                  "No strengthening until pain reduces"],
                 ["Complete rest from activity", "Ice every 2 hours"],
                 "Reduce acute inflammation"⟩),
   ("High", ⟨["Rest — possible re-injury or complication"],
             ["Imaging may be required — visit clinic"],
             "Rule out fracture or tendon damage"⟩),
   ("Critical", ⟨["Immediate medical evaluation"],
                 ["Do not move injury — immobilize and seek ER"],
                 "Emergency assessment required"⟩)]

/-- Per-risk plans of the "Stroke Rehab" pathway. -/
def strokeRehabPlans : List (String × PlanCell) :=
  [("Low", ⟨["Mirror therapy — 15 min daily",
             "Hand grip exercises with therapy putty",
             "Seated marching — 2 min × 3 sets",
             "Speech and word recall exercises",
             "Fine motor tasks — buttoning, picking objects"],
            ["Supervision required for all exercises", "Avoid fatigue",
             "Fall prevention protocol"],
            "Neuroplasticity training — rebuild motor pathways"⟩),
   ("Moderate", ⟨["Passive ROM only with caregiver assistance",
                  "Breathing exercises",
                  "Visual tracking exercises"],
                 ["Bed rest", "Supervision at all times"],
                 "Stabilize before progressing rehab"⟩),
   ("High", ⟨["Pause rehab program"],
             ["Neurologist review required urgently"],
             "Reassess neurological status"⟩),
   ("Critical", ⟨["Emergency services — possible secondary stroke"],
                 ["FAST protocol: Face drooping, Arm weakness, Speech difficulty, Time to call emergency"],
                 "Immediate emergency evaluation"⟩)]

/-- Static rehab-plan table `REHAB_PLANS` (src/ml/rehab_engine.py, lines
6-163): five pathways × four risk tiers. -/
def REHAB_PLANS : List (String × List (String × PlanCell)) :=
  [("Minor Surgery", minorSurgeryPlans),
   ("Orthopedic Surgery", orthopedicSurgeryPlans),
   ("General Discharge", generalDischargePlans),
   ("Injury Recovery", injuryRecoveryPlans),
   ("Stroke Rehab", strokeRehabPlans)]

/-- Embedding of `get_rehab_plan` (src/ml/rehab_engine.py, lines 166-188):
table lookup with the General Discharge / Low fallbacks, then the
recovery-phase overlay chosen purely from `days_post_surgery`. -/
def get_rehab_plan (surgery_type risk_level : String) (days_post_surgery : ℤ) : RehabPlan :=
  let plans := (REHAB_PLANS.lookup surgery_type).getD generalDischargePlans
  let base_plan := (plans.lookup risk_level).getD ((plans.lookup "Low").getD ⟨[], [], ""⟩)
  let phase_note : String × String :=
    if days_post_surgery ≤ 7 then
      ("Acute Phase (Days 1–7)", "Focus on rest, pain management, and basic mobility.")
    else if days_post_surgery ≤ 21 then
      ("Sub-Acute Phase (Days 8–21)", "Begin progressive strengthening. Gentle exercises allowed.")
    else if days_post_surgery ≤ 42 then
      ("Functional Recovery (Days 22–42)", "Increase activity gradually. Focus on functional tasks.")
    else
      ("Return to Activity (Day 42+)", "Progressive loading. Prepare for full daily activities.")
  ⟨base_plan.exercises, base_plan.restrictions, base_plan.goals, phase_note.1, phase_note.2⟩

/-- Known pathway names, in table order. -/
def knownPathways : List String :=
  ["Minor Surgery", "Orthopedic Surgery", "General Discharge", "Injury Recovery", "Stroke Rehab"]

/-- Known risk tiers, in table order. -/
def knownRisks : List String := ["Low", "Moderate", "High", "Critical"]

/-- Recovery phase and note as the spec states them, chosen solely from
`days_post` by the breakpoints ≤7, ≤21, ≤42, >42. -/
def recoveryPhaseSpec (days_post : ℤ) : String × String :=
  if days_post ≤ 7 then
    ("Acute Phase (Days 1–7)", "Focus on rest, pain management, and basic mobility.")
  else if days_post ≤ 21 then
    ("Sub-Acute Phase (Days 8–21)", "Begin progressive strengthening. Gentle exercises allowed.")
  else if days_post ≤ 42 then
    ("Functional Recovery (Days 22–42)", "Increase activity gradually. Focus on functional tasks.")
  else
    ("Return to Activity (Day 42+)", "Progressive loading. Prepare for full daily activities.")

/-- Rehab plan selection as the spec states it: the static table cell for
the pathway and risk tier, with an unknown pathway replaced by "General
Discharge" and an unknown risk tier replaced by "Low", overlaid with the
recovery phase derived from `days_post`. -/
def rehabPlanSpec (surgery_type risk_level : String) (days_post : ℤ) : RehabPlan :=
  let st := if surgery_type ∈ knownPathways then surgery_type else "General Discharge"
  let rl := if risk_level ∈ knownRisks then risk_level else "Low"
  let cell := ((REHAB_PLANS.lookup st).getD generalDischargePlans |>.lookup rl).getD ⟨[], [], ""⟩
  let pn := recoveryPhaseSpec days_post
  ⟨cell.exercises, cell.restrictions, cell.goals, pn.1, pn.2⟩

/-- Alert types raised by the alert engine. -/
inductive AlertType where
  | CRITICAL
  | ESCALATION
  | FEVER_SWELLING
deriving Repr, DecidableEq

/-- Embedding of `check_alerts` (src/backend/main.py, lines 389-423): the
three independent rules evaluated in order over the log history (including
the just-appended entry) and the latest risk index; the message, patient
and timestamp fields of each alert are presentational and not modelled. -/
def check_alerts (logs : List LogEntry) (risk_index : ℤ) : List AlertType :=
  (if 3 ≤ risk_index then [AlertType.CRITICAL] else [])
  ++ (match logs.drop (logs.length - 3) with
      | [a, b, c] =>
          if a.pain_score < b.pain_score ∧ b.pain_score < c.pain_score then
            [AlertType.ESCALATION]
          else []
      | _ => [])
  ++ (match logs.getLast? with
      | some latest =>
          if latest.fever ≥ 100.4 ∧ latest.swelling ∈ (["Moderate", "Severe"] : List String) then
            [AlertType.FEVER_SWELLING]
          else []
      | none => [])

/-- Category-to-code table `surgery_map` of `predict_risk`
(src/ml/model.py). -/
def surgery_map : List (String × ℚ) :=
  [("Minor Surgery", 0), ("Orthopedic Surgery", 1), ("General Discharge", 2),
   ("Injury Recovery", 3), ("Stroke Rehab", 4)]

/-- Category-to-code table `swelling_map` of `predict_risk`. -/
def swelling_map : List (String × ℚ) :=
  [("None", 0), ("Mild", 1), ("Moderate", 2), ("Severe", 3)]

/-- Category-to-code table `wound_map` of `predict_risk`. -/
def wound_map : List (String × ℚ) :=
  [("Clean/Healing", 0), ("Redness", 1), ("Discharge/Open", 2)]

/-- Category-to-code table `trend_map` of `predict_risk`. -/
def trend_map : List (String × ℚ) :=
  [("Improving", -1), ("Stable", 0), ("Worsening", 1)]

/-- Raw feature dict consumed by `predict_risk`: numeric fields plus the
categorical report fields as arbitrary strings. -/
structure RawFeatures where
  pain_score : ℤ
  swelling : String
  fever : ℚ
  mobility : ℤ
  wound_status : String
  medication_adherence : ℤ
  days_post_surgery : ℤ
  surgery_type : String
  pain_trend : String
deriving Repr, DecidableEq

/-- Feature encoding performed by `predict_risk` (src/ml/model.py, lines
104-122) when building the 9-entry input row `X`: numeric fields pass
through, categorical fields go through the code tables with the `dict.get`
defaults 0, 0, 2 and 0. -/
def encodeFeatures (f : RawFeatures) : List ℚ :=
  [(f.pain_score : ℚ),
   (swelling_map.lookup f.swelling).getD 0,
   f.fever,
   (f.mobility : ℚ),
   (wound_map.lookup f.wound_status).getD 0,
   (f.medication_adherence : ℚ),
   (f.days_post_surgery : ℚ),
   (surgery_map.lookup f.surgery_type).getD 2,
   (trend_map.lookup f.pain_trend).getD 0]

/-- Sampled feature row of the synthetic-dataset generator
`generate_dataset` (src/ml/model.py, lines 18-53), with the categorical
fields already in numeric-code form as the generator draws them. -/
structure SampleFeatures where
  pain_score : ℤ
  swelling : ℤ
  fever : ℚ
  mobility : ℤ
  wound_status : ℤ
  medication_adherence : ℤ
  days_post_surgery : ℤ
  surgery_type : ℤ
  pain_trend : ℤ
deriving Repr, DecidableEq

/-- Deterministic risk-label cascade of `generate_dataset` (src/ml/model.py,
lines 33-45): the synthetic ground truth assigning a risk index 0-3 to a
sampled feature row. -/
def riskLabel (s : SampleFeatures) : ℤ :=
  if 101.5 ≤ s.fever ∨ s.wound_status = 2 then 3
  else if 8 ≤ s.pain_score ∨ s.swelling = 3 then 2
  else if 6 ≤ s.pain_score ∨ s.swelling = 2 ∨ 100.4 ≤ s.fever then 1
  else if s.pain_trend = 1 ∧ 5 ≤ s.pain_score then 1
  else if s.mobility ≤ 2 ∧ 14 < s.days_post_surgery then 2
  else 0

/-- Risk cascade with the two fever threshold tests abstracted into the
booleans `b1` (fever ≥ 101.5) and `b3` (fever ≥ 100.4), and the remaining
fever-independent conditions abstracted into `w2`, `hi`, `mid`, `tr`,
`im`; used to settle the fever monotonicity of `riskLabel` by finite case
analysis. -/
def riskLabelBools (b1 w2 hi mid b3 tr im : Bool) : ℤ :=
  if b1 || w2 then 3
  else if hi then 2
  else if mid || b3 then 1
  else if tr then 1
  else if im then 2
  else 0

/-- Risk label names, indexed by risk index (`RISK_LABELS` of
src/ml/model.py). -/
def RISK_LABELS : Fin 4 → String := !["Low", "Moderate", "High", "Critical"]

/-- Index of the largest of four probabilities, first index winning ties:
the behaviour of the classifier's `predict` (argmax of `predict_proba`). -/
def argmax4 (p : Fin 4 → ℚ) : Fin 4 :=
  let i1 : Fin 4 := if p 0 < p 1 then 1 else 0
  let i2 : Fin 4 := if p i1 < p 2 then 2 else i1
  if p i2 < p 3 then 3 else i2

/-- Risk assessment returned by `predict_risk` (the color field is a fixed
companion of the label and is not modelled). -/
structure RiskAssessment where
  risk_index : ℤ
  risk_level : String
  confidence : ℚ
  probabilities : Fin 4 → ℚ

/-- Embedding of `predict_risk` (src/ml/model.py, lines 96-134) downstream
of the trained ensemble, which is an opaque serialized artifact abstracted
here by its per-class probability output `p`; its `predict` returns the
argmax class of `predict_proba`, the confidence is that class's
probability as a percentage rounded to one decimal, and the reported
distribution is the whole vector in percent rounded to one decimal. -/
def predict_risk (p : Fin 4 → ℚ) : RiskAssessment :=
  let risk_idx := argmax4 p
  ⟨((risk_idx : ℕ) : ℤ), RISK_LABELS risk_idx,
   pyRound1 (p risk_idx * 100),
   fun i => pyRound1 (p i * 100)⟩

/-! ### Helper lemmas -/

/-- Rounding to one decimal is the identity on integers. -/
lemma pyRound1_intCast (n : ℤ) : pyRound1 (n : ℚ) = n := by
  unfold pyRound1
  rw [show ((n : ℚ) * 10) = ((n * 10 : ℤ) : ℚ) by push_cast; ring, round_intCast]
  push_cast
  ring

/-- Clamping `min (max r 0) 100` lands in [0, 100]. -/
lemma clamp_mem (r : ℚ) : 0 ≤ min (max r 0) 100 ∧ min (max r 0) 100 ≤ 100 :=
  ⟨le_min (le_max_right r 0) (by norm_num), min_le_right _ _⟩

/-- Lookup in the swelling contribution table agrees with the spec's
swelling step on every string. -/
lemma swelling_lookup_eq (s : String) :
    (swellingContribution.lookup s).getD 0 = swellingStepSpec s := by
  by_cases h1 : s = "None"
  · subst h1; rfl
  by_cases h2 : s = "Mild"
  · subst h2; rfl
  by_cases h3 : s = "Moderate"
  · subst h3; rfl
  by_cases h4 : s = "Severe"
  · subst h4; rfl
  simp [swellingContribution, swellingStepSpec, List.lookup,
    beq_eq_false_iff_ne.mpr h1, beq_eq_false_iff_ne.mpr h2,
    beq_eq_false_iff_ne.mpr h3, beq_eq_false_iff_ne.mpr h4, h1, h2, h3, h4]

/-- Lookup in the wound contribution table agrees with the spec's wound
step on every string. -/
lemma wound_lookup_eq (w : String) :
    (woundContribution.lookup w).getD 0 = woundStepSpec w := by
  by_cases h1 : w = "Clean/Healing"
  · subst h1; rfl
  by_cases h2 : w = "Redness"
  · subst h2; rfl
  by_cases h3 : w = "Discharge/Open"
  · subst h3; rfl
  simp [woundContribution, woundStepSpec, List.lookup,
    beq_eq_false_iff_ne.mpr h1, beq_eq_false_iff_ne.mpr h2,
    beq_eq_false_iff_ne.mpr h3, h1, h2, h3]

/-- Accumulating the fever step inside the if-chain equals adding the
spec's fever step. -/
lemma fever_acc (fv acc : ℚ) :
    (if fv ≥ 103 then acc + 25 else if fv ≥ 101.5 then acc + 20
     else if fv ≥ 100.4 then acc + 12 else if fv ≥ 99.5 then acc + 5 else acc)
      = acc + feverStepSpec fv := by
  unfold feverStepSpec
  split_ifs <;> ring

/-- Accumulating the pain-trend step inside the if-chain equals adding the
spec's trend step. -/
lemma trend_acc (t : String) (acc : ℚ) :
    (if t = "Worsening" then acc + 10 else if t = "Stable" then acc + 2 else acc)
      = acc + trendStepSpec t := by
  unfold trendStepSpec
  split_ifs <;> ring

/-- Accumulating the low-mobility bonus equals adding its step value. -/
lemma mobility_acc (m : ℤ) (acc : ℚ) :
    (if m ≤ 2 then acc + 5 else acc) = acc + (if m ≤ 2 then 5 else 0) := by
  split_ifs <;> ring

/-- The final category if-chain of `calculate_complication_probability`
builds the pair of the score with its spec category. -/
lemma category_pair (s : ℚ) :
    (if s < 20 then (⟨s, "Very Low"⟩ : ComplicationResult)
     else if s < 40 then ⟨s, "Low"⟩
     else if s < 60 then ⟨s, "Moderate"⟩
     else if s < 80 then ⟨s, "High"⟩
     else ⟨s, "Critical"⟩) = ⟨s, complicationCategorySpec s⟩ := by
  unfold complicationCategorySpec
  split_ifs <;> rfl

/-! ### Claim theorems -/

/-- C2.  The complication-probability score equals the spec's additive
formula — pain, fever step, swelling step, wound step, trend step,
low-mobility bonus, minus the adherence credit — clamped to [0,100] and
rounded to one decimal, and the category is chosen by the boundaries
20/40/60/80; in particular pain 10, fever 98.6, no swelling, clean wound,
stable trend, mobility 8, adherence 10 yields score 19 and category
"Very Low". -/
theorem complication_probability_spec :
    (∀ f : DayFeatures,
      f.swelling ∈ (["None", "Mild", "Moderate", "Severe"] : List String) →
      f.wound_status ∈ (["Clean/Healing", "Redness", "Discharge/Open"] : List String) →
      f.pain_trend ∈ (["Improving", "Stable", "Worsening"] : List String) →
      calculate_complication_probability f =
        ⟨complicationScoreSpec f, complicationCategorySpec (complicationScoreSpec f)⟩) ∧
    calculate_complication_probability ⟨10, 98.6, "None", "Clean/Healing", "Stable", 8, 10⟩ =
      ⟨19, "Very Low"⟩ := by
  constructor
  · intro f _ _ _
    simp only [calculate_complication_probability]
    rw [fever_acc, swelling_lookup_eq, wound_lookup_eq, trend_acc, mobility_acc, category_pair]
    have harg :
        0 + (f.pain_score : ℚ) / 10 * 25 + feverStepSpec f.fever
          + swellingStepSpec f.swelling + woundStepSpec f.wound_status
          + trendStepSpec f.pain_trend + (if f.mobility ≤ 2 then (5 : ℚ) else 0)
          - (f.medication_adherence : ℚ) / 10 * 8
        = (f.pain_score : ℚ) / 10 * 25 + feverStepSpec f.fever
          + swellingStepSpec f.swelling + woundStepSpec f.wound_status
          + trendStepSpec f.pain_trend
          + (if f.mobility ≤ 2 then (5 : ℚ) else 0)
          - (f.medication_adherence : ℚ) / 10 * 8 := by ring
    rw [complicationScoreSpec, harg]
  · simp only [calculate_complication_probability]
    norm_num [List.lookup, swellingContribution, woundContribution, pyRound1,
      show ("Stable" : String) ≠ "Worsening" from by decide]

/-- C3.  The recovery score equals the spec's piecewise reference
definition — 0 for an empty history, the baseline-50 single-entry formula
clamped to [0,100], and the baseline-40 first-versus-latest formula with
fever and swelling penalties clamped and rounded for two or more
entries — and its value always lies in [0,100]. -/
theorem recovery_score_spec (logs : List LogEntry) :
    get_recovery_score logs = recoveryScoreSpec logs ∧
    0 ≤ get_recovery_score logs ∧ get_recovery_score logs ≤ 100 := by
  rcases logs with _ | ⟨first, _ | ⟨b, t⟩⟩
  · exact ⟨rfl, le_refl 0, by norm_num [get_recovery_score]⟩
  · refine ⟨?_, ?_, ?_⟩
    · simp only [get_recovery_score, recoveryScoreSpec]
      rw [show (50 + ((10 : ℚ) - (first.pain_score : ℚ)) * 3 + (first.mobility : ℚ) * 2)
            = ((50 + 3 * (10 - first.pain_score) + 2 * first.mobility : ℤ) : ℚ) by
          push_cast; ring,
        pyRound1_intCast]
    · exact (clamp_mem _).1
    · exact (clamp_mem _).2
  · refine ⟨?_, ?_, ?_⟩
    · simp only [get_recovery_score, recoveryScoreSpec, List.mem_cons, List.mem_singleton,
        List.not_mem_nil, or_false, ge_iff_le]
      congr 2
      split_ifs <;> ring_nf
    · exact (clamp_mem _).1
    · exact (clamp_mem _).2

/-- Membership of CRITICAL in the alert list is exactly the risk-index
rule. -/
lemma critical_mem (logs : List LogEntry) (r : ℤ) :
    AlertType.CRITICAL ∈ check_alerts logs r ↔ 3 ≤ r := by
  unfold check_alerts
  rcases hd : logs.drop (logs.length - 3) with _ | ⟨a, _ | ⟨b, _ | ⟨c, _ | d⟩⟩⟩ <;>
    rcases hl : logs.getLast? with _ | latest <;>
      simp only [List.mem_append, List.mem_singleton, List.not_mem_nil] <;>
        split_ifs <;> simp_all

/-- Membership of ESCALATION in the alert list is exactly the
three-increasing-pain rule on the last three entries. -/
lemma escalation_mem (logs : List LogEntry) (r : ℤ) :
    AlertType.ESCALATION ∈ check_alerts logs r ↔
      ∃ a b c : LogEntry, logs.drop (logs.length - 3) = [a, b, c] ∧
        a.pain_score < b.pain_score ∧ b.pain_score < c.pain_score := by
  unfold check_alerts
  rcases hd : logs.drop (logs.length - 3) with _ | ⟨a, _ | ⟨b, _ | ⟨c, _ | d⟩⟩⟩ <;>
    rcases hl : logs.getLast? with _ | latest <;>
      simp only [List.mem_append, List.mem_singleton, List.not_mem_nil] <;>
        split_ifs <;> simp_all <;>
          exact ⟨a, b, c, ⟨rfl, rfl, rfl⟩, by assumption⟩

/-- Membership of FEVER_SWELLING in the alert list is exactly the
fever-with-swelling rule on the latest entry. -/
lemma fever_swelling_mem (logs : List LogEntry) (r : ℤ) :
    AlertType.FEVER_SWELLING ∈ check_alerts logs r ↔
      ∃ latest : LogEntry, logs.getLast? = some latest ∧ 100.4 ≤ latest.fever ∧
        (latest.swelling = "Moderate" ∨ latest.swelling = "Severe") := by
  unfold check_alerts
  rcases hd : logs.drop (logs.length - 3) with _ | ⟨a, _ | ⟨b, _ | ⟨c, _ | d⟩⟩⟩ <;>
    rcases hl : logs.getLast? with _ | latest <;>
      simp only [List.mem_append, List.mem_singleton, List.not_mem_nil] <;>
        split_ifs <;> simp_all

/-- A three-element tail obtained by dropping all but three entries forces
the history to have at least three entries. -/
lemma length_ge_three_of_drop (logs : List LogEntry) (a b c : LogEntry)
    (h : logs.drop (logs.length - 3) = [a, b, c]) : 3 ≤ logs.length := by
  have := congrArg List.length h
  simp only [List.length_drop, List.length_cons, List.length_nil] at this
  omega

/-- C4.  The three alert rules are characterized independently: CRITICAL
fires exactly when the risk index is at least 3, ESCALATION exactly when
the history has at least three entries whose last three pain scores
strictly increase, and FEVER_SWELLING exactly when the latest entry has
fever at least 100.4 with Moderate or Severe swelling; any subset can fire
together, and the pain sequences [3,5,7] and [7,5,3] respectively do and
do not fire ESCALATION. -/
theorem check_alerts_rules :
    (∀ (logs : List LogEntry) (risk_index : ℤ),
      (AlertType.CRITICAL ∈ check_alerts logs risk_index ↔ 3 ≤ risk_index) ∧
      (AlertType.ESCALATION ∈ check_alerts logs risk_index ↔
        3 ≤ logs.length ∧ ∃ a b c : LogEntry,
          logs.drop (logs.length - 3) = [a, b, c] ∧
          a.pain_score < b.pain_score ∧ b.pain_score < c.pain_score) ∧
      (AlertType.FEVER_SWELLING ∈ check_alerts logs risk_index ↔
        ∃ latest : LogEntry, logs.getLast? = some latest ∧ 100.4 ≤ latest.fever ∧
          (latest.swelling = "Moderate" ∨ latest.swelling = "Severe"))) ∧
    AlertType.ESCALATION ∈
      check_alerts [⟨3, 5, 98.6, "None"⟩, ⟨5, 5, 98.6, "None"⟩, ⟨7, 5, 98.6, "None"⟩] 0 ∧
    AlertType.ESCALATION ∉
      check_alerts [⟨7, 5, 98.6, "None"⟩, ⟨5, 5, 98.6, "None"⟩, ⟨3, 5, 98.6, "None"⟩] 0 := by
  refine ⟨fun logs risk_index => ⟨critical_mem logs risk_index, ?_, fever_swelling_mem logs risk_index⟩, ?_, ?_⟩
  · rw [escalation_mem]
    constructor
    · rintro ⟨a, b, c, hd, h1, h2⟩
      exact ⟨length_ge_three_of_drop logs a b c hd, a, b, c, hd, h1, h2⟩
    · rintro ⟨-, a, b, c, hd, h1, h2⟩
      exact ⟨a, b, c, hd, h1, h2⟩
  · rw [escalation_mem]
    exact ⟨_, _, _, rfl, by norm_num, by norm_num⟩
  · rw [escalation_mem]
    rintro ⟨a, b, c, hd, h1, h2⟩
    simp only [List.length_cons, List.length_nil, List.drop] at hd
    obtain ⟨rfl, rfl, rfl⟩ : a = ⟨7, 5, 98.6, "None"⟩ ∧ b = ⟨5, 5, 98.6, "None"⟩ ∧ c = ⟨3, 5, 98.6, "None"⟩ := by
      injection hd with h hd
      injection hd with h2' hd
      injection hd with h3' _
      exact ⟨h.symm ▸ rfl, h2'.symm ▸ rfl, h3'.symm ▸ rfl⟩
    norm_num at h1

/-- C5.  The pain-pattern analyzer agrees with the spec's reference
classification on every history: fewer than two entries yield
"Insufficient Data" without error, and otherwise the last at most seven
pain scores are classified by the stated trend-difference and
step-count priority rules; in particular the scores [8,7,6,5,4,3,2]
yield "Steady Improvement" with trend "improving". -/
theorem pain_pattern_spec_agrees :
    (∀ logs : List LogEntry,
      analyze_pain_pattern logs =
        if logs.length < 2 then ⟨"Insufficient Data", "unknown"⟩
        else painPatternSpec logs) ∧
    analyze_pain_pattern
      [⟨8, 5, 98.6, "None"⟩, ⟨7, 5, 98.6, "None"⟩, ⟨6, 5, 98.6, "None"⟩,
       ⟨5, 5, 98.6, "None"⟩, ⟨4, 5, 98.6, "None"⟩, ⟨3, 5, 98.6, "None"⟩,
       ⟨2, 5, 98.6, "None"⟩] = ⟨"Steady Improvement", "improving"⟩ := by
  constructor
  · intro logs
    by_cases h : logs.length < 2
    · simp [analyze_pain_pattern, h]
    · have hz : ∀ X : List ℤ,
          List.zipWith (fun a b => a - b) X.tail X = List.zipWith (fun a b => b - a) X X.tail :=
        fun X => List.zipWith_comm _ X.tail X
      simp only [analyze_pain_pattern, painPatternSpec, if_neg h, List.map_drop,
        List.countP_eq_length_filter, hz]
  · norm_num [analyze_pain_pattern, List.countP, List.countP.go]

/-- C6.  The recovery-days estimator returns the spec's formula: the
estimated total is the pathway baseline times the risk multiplier times
the pain and mobility factors truncated to an integer, the remaining days
are clamped at zero, the progress percentage is min(100, round(100 ×
days_post / estimated_total, 1)) with a zero estimated total yielding 100,
and the milestone is chosen by the 90/70/50/25 breakpoints; in particular
baseline 60, risk Low, pain 0, mobility 10, 21 days post yields total 42,
remaining 21, progress 50.0 and the halfway milestone. -/
theorem predict_recovery_days_spec :
    (∀ (surgery_type risk_level : String) (days_post pain_score mobility : ℤ),
      (predict_recovery_days surgery_type risk_level days_post pain_score mobility).estimated_total_days
          = estimatedTotalSpec surgery_type risk_level pain_score mobility ∧
      (predict_recovery_days surgery_type risk_level days_post pain_score mobility).days_remaining
          = max 0 (estimatedTotalSpec surgery_type risk_level pain_score mobility - days_post) ∧
      (0 < estimatedTotalSpec surgery_type risk_level pain_score mobility →
        (predict_recovery_days surgery_type risk_level days_post pain_score mobility).progress_pct
          = min 100 (pyRound1 (100 * (days_post : ℚ)
              / (estimatedTotalSpec surgery_type risk_level pain_score mobility : ℚ)))) ∧
      (estimatedTotalSpec surgery_type risk_level pain_score mobility = 0 →
        (predict_recovery_days surgery_type risk_level days_post pain_score mobility).progress_pct
          = 100) ∧
      (predict_recovery_days surgery_type risk_level days_post pain_score mobility).milestone
          = milestoneSpec
              (predict_recovery_days surgery_type risk_level days_post pain_score mobility).progress_pct) ∧
    predict_recovery_days "Orthopedic Surgery" "Low" 21 0 10 =
      ⟨42, 21, 21, 50, "📈 Halfway there — keep going!"⟩ := by
  constructor
  · intro st rl d p m
    refine ⟨rfl, rfl, ?_, ?_, ?_⟩
    · intro hpos
      simp only [predict_recovery_days, estimatedTotalSpec] at hpos ⊢
      rw [if_pos hpos]
      congr 2
      ring
    · intro hzero
      simp only [predict_recovery_days, estimatedTotalSpec] at hzero ⊢
      rw [hzero]
      norm_num
    · simp only [predict_recovery_days, milestoneSpec, ge_iff_le]
  · simp only [predict_recovery_days, RECOVERY_BASE_DAYS, riskMultiplierTable,
      List.lookup, String.reduceBEq]
    norm_num [pyTrunc, pyRound1]

/-- Looking up an unknown pathway in the rehab table yields no entry. -/
lemma unknown_pathway_lookup (st : String) (h : st ∉ knownPathways) :
    REHAB_PLANS.lookup st = none := by
  simp only [knownPathways, List.mem_cons, List.not_mem_nil, or_false, not_or] at h
  obtain ⟨h1, h2, h3, h4, h5⟩ := h
  simp [REHAB_PLANS, List.lookup, beq_eq_false_iff_ne.mpr h1, beq_eq_false_iff_ne.mpr h2,
    beq_eq_false_iff_ne.mpr h3, beq_eq_false_iff_ne.mpr h4, beq_eq_false_iff_ne.mpr h5]

/-- The pathway lookup with its General Discharge default equals the
lookup of the spec's fallback-resolved pathway name. -/
lemma plans_select (st : String) :
    (REHAB_PLANS.lookup st).getD generalDischargePlans =
      (REHAB_PLANS.lookup (if st ∈ knownPathways then st else "General Discharge")).getD
        generalDischargePlans := by
  by_cases h : st ∈ knownPathways
  · rw [if_pos h]
  · rw [if_neg h, unknown_pathway_lookup st h]
    rfl

/-- Lookup in a four-tier risk table with the double `dict.get` default of
the source equals lookup of the spec's fallback-resolved risk name. -/
lemma lookup4_select {α : Type} (v1 v2 v3 v4 : α) (d : α) (rl : String) :
    (List.lookup rl [("Low", v1), ("Moderate", v2), ("High", v3), ("Critical", v4)]).getD
        ((List.lookup "Low"
          [("Low", v1), ("Moderate", v2), ("High", v3), ("Critical", v4)]).getD d) =
      (List.lookup (if rl ∈ knownRisks then rl else "Low")
        [("Low", v1), ("Moderate", v2), ("High", v3), ("Critical", v4)]).getD d := by
  by_cases h : rl ∈ knownRisks
  · rw [if_pos h]
    fin_cases h <;> rfl
  · rw [if_neg h]
    simp only [knownRisks, List.mem_cons, List.not_mem_nil, or_false, not_or] at h
    obtain ⟨h1, h2, h3, h4⟩ := h
    simp [List.lookup, beq_eq_false_iff_ne.mpr h1, beq_eq_false_iff_ne.mpr h2,
      beq_eq_false_iff_ne.mpr h3, beq_eq_false_iff_ne.mpr h4]

/-- Pathway lookup computation for "Minor Surgery". -/
lemma lookup_minor : REHAB_PLANS.lookup "Minor Surgery" = some minorSurgeryPlans := rfl

/-- Pathway lookup computation for "Orthopedic Surgery". -/
lemma lookup_ortho : REHAB_PLANS.lookup "Orthopedic Surgery" = some orthopedicSurgeryPlans := rfl

/-- Pathway lookup computation for "General Discharge". -/
lemma lookup_general : REHAB_PLANS.lookup "General Discharge" = some generalDischargePlans := rfl

/-- Pathway lookup computation for "Injury Recovery". -/
lemma lookup_injury : REHAB_PLANS.lookup "Injury Recovery" = some injuryRecoveryPlans := rfl

/-- Pathway lookup computation for "Stroke Rehab". -/
lemma lookup_stroke : REHAB_PLANS.lookup "Stroke Rehab" = some strokeRehabPlans := rfl

/-- C7.  The rehab-plan selector returns the static table cell for the
pathway and risk tier with the General Discharge and Low fallbacks for
unknown names, overlaid with the recovery phase and note determined solely
by days post-intervention through the ≤7 / ≤21 / ≤42 / >42 breakpoints
(so identical inputs always yield the identical plan object, the selector
being a pure function of its three arguments). -/
theorem rehab_plan_agrees (surgery_type risk_level : String) (days_post : ℤ) :
    get_rehab_plan surgery_type risk_level days_post =
      rehabPlanSpec surgery_type risk_level days_post := by
  simp only [get_rehab_plan, rehabPlanSpec, recoveryPhaseSpec]
  rw [plans_select]
  by_cases hst : surgery_type ∈ knownPathways
  · rw [if_pos hst]
    fin_cases hst <;>
      · simp only [lookup_minor, lookup_ortho, lookup_general, lookup_injury, lookup_stroke,
          Option.getD_some, minorSurgeryPlans, orthopedicSurgeryPlans, generalDischargePlans,
          injuryRecoveryPlans, strokeRehabPlans]
        rw [lookup4_select]
  · rw [if_neg hst]
    simp only [lookup_general, Option.getD_some, generalDischargePlans]
    rw [lookup4_select]

/-- C8.  Feature encoding is total and never fails: every unrecognized
swelling, wound or trend string resolves to the neutral default code 0 and
an unrecognized care pathway resolves to the mid-pathway code 2, each
recognized category string maps to its unique fixed numeric code, and the
numeric fields pass through the 9-entry feature vector unchanged. -/
theorem feature_encoding_total :
    (∀ s : String, s ∉ (["None", "Mild", "Moderate", "Severe"] : List String) →
      (swelling_map.lookup s).getD 0 = 0) ∧
    (∀ w : String, w ∉ (["Clean/Healing", "Redness", "Discharge/Open"] : List String) →
      (wound_map.lookup w).getD 0 = 0) ∧
    (∀ t : String, t ∉ (["Improving", "Stable", "Worsening"] : List String) →
      (trend_map.lookup t).getD 0 = 0) ∧
    (∀ st : String, st ∉ knownPathways → (surgery_map.lookup st).getD 2 = 2) ∧
    ((swelling_map.lookup "None").getD 0 = 0 ∧ (swelling_map.lookup "Mild").getD 0 = 1 ∧
     (swelling_map.lookup "Moderate").getD 0 = 2 ∧ (swelling_map.lookup "Severe").getD 0 = 3) ∧
    ((wound_map.lookup "Clean/Healing").getD 0 = 0 ∧ (wound_map.lookup "Redness").getD 0 = 1 ∧
     (wound_map.lookup "Discharge/Open").getD 0 = 2) ∧
    ((trend_map.lookup "Improving").getD 0 = -1 ∧ (trend_map.lookup "Stable").getD 0 = 0 ∧
     (trend_map.lookup "Worsening").getD 0 = 1) ∧
    ((surgery_map.lookup "Minor Surgery").getD 2 = 0 ∧
     (surgery_map.lookup "Orthopedic Surgery").getD 2 = 1 ∧
     (surgery_map.lookup "General Discharge").getD 2 = 2 ∧
     (surgery_map.lookup "Injury Recovery").getD 2 = 3 ∧
     (surgery_map.lookup "Stroke Rehab").getD 2 = 4) ∧
    (∀ f : RawFeatures, (encodeFeatures f).length = 9 ∧
      (encodeFeatures f).get? 0 = some (f.pain_score : ℚ) ∧
      (encodeFeatures f).get? 2 = some f.fever ∧
      (encodeFeatures f).get? 3 = some (f.mobility : ℚ) ∧
      (encodeFeatures f).get? 5 = some (f.medication_adherence : ℚ) ∧
      (encodeFeatures f).get? 6 = some (f.days_post_surgery : ℚ)) := by
  refine ⟨?_, ?_, ?_, ?_, ⟨rfl, rfl, rfl, rfl⟩, ⟨rfl, rfl, rfl⟩, ⟨rfl, rfl, rfl⟩,
    ⟨rfl, rfl, rfl, rfl, rfl⟩, fun f => ⟨rfl, rfl, rfl, rfl, rfl, rfl⟩⟩
  · intro s h
    simp only [List.mem_cons, List.not_mem_nil, or_false, not_or] at h
    obtain ⟨h1, h2, h3, h4⟩ := h
    simp [swelling_map, List.lookup, beq_eq_false_iff_ne.mpr h1, beq_eq_false_iff_ne.mpr h2,
      beq_eq_false_iff_ne.mpr h3, beq_eq_false_iff_ne.mpr h4]
  · intro w h
    simp only [List.mem_cons, List.not_mem_nil, or_false, not_or] at h
    obtain ⟨h1, h2, h3⟩ := h
    simp [wound_map, List.lookup, beq_eq_false_iff_ne.mpr h1, beq_eq_false_iff_ne.mpr h2,
      beq_eq_false_iff_ne.mpr h3]
  · intro t h
    simp only [List.mem_cons, List.not_mem_nil, or_false, not_or] at h
    obtain ⟨h1, h2, h3⟩ := h
    simp [trend_map, List.lookup, beq_eq_false_iff_ne.mpr h1, beq_eq_false_iff_ne.mpr h2,
      beq_eq_false_iff_ne.mpr h3]
  · intro st h
    simp only [knownPathways, List.mem_cons, List.not_mem_nil, or_false, not_or] at h
    obtain ⟨h1, h2, h3, h4, h5⟩ := h
    simp [surgery_map, List.lookup, beq_eq_false_iff_ne.mpr h1, beq_eq_false_iff_ne.mpr h2,
      beq_eq_false_iff_ne.mpr h3, beq_eq_false_iff_ne.mpr h4, beq_eq_false_iff_ne.mpr h5]

/-- The argmax of four probabilities dominates every class probability. -/
lemma argmax4_ge (p : Fin 4 → ℚ) (i : Fin 4) : p i ≤ p (argmax4 p) := by
  have h4 : i = 0 ∨ i = 1 ∨ i = 2 ∨ i = 3 := by fin_cases i <;> decide
  rcases h4 with rfl | rfl | rfl | rfl <;> simp only [argmax4] <;> split_ifs <;> linarith

/-- Rounding to one decimal preserves nonnegativity. -/
lemma pyRound1_nonneg (x : ℚ) (hx : 0 ≤ x) : 0 ≤ pyRound1 x := by
  unfold pyRound1
  have h : (0 : ℤ) ≤ round (x * 10) := by
    rw [round_eq]
    exact Int.le_floor.mpr (by push_cast; linarith)
  have : (0 : ℚ) ≤ (round (x * 10) : ℤ) := by exact_mod_cast h
  linarith

/-- Rounding to one decimal preserves the bound 100. -/
lemma pyRound1_le_100 (x : ℚ) (hx : x ≤ 100) : pyRound1 x ≤ 100 := by
  unfold pyRound1
  have h1 : ((round (x * 10) : ℤ) : ℚ) ≤ x * 10 + 1/2 := by
    rw [round_eq]
    exact_mod_cast Int.floor_le (x * 10 + 1/2)
  have h2 : ((round (x * 10) : ℤ) : ℚ) < 1001 := by linarith
  have h3 : round (x * 10) ≤ 1000 := by exact_mod_cast Int.lt_add_one_iff.mp (by exact_mod_cast h2)
  have h4 : ((round (x * 10) : ℤ) : ℚ) ≤ 1000 := by exact_mod_cast h3
  linarith

/-- Rounding to one decimal moves a value by at most one twentieth. -/
lemma abs_pyRound1_sub (x : ℚ) : |pyRound1 x - x| ≤ 1/20 := by
  unfold pyRound1
  have h := abs_sub_round (x * 10)
  have heq : (round (x * 10) : ℤ) / (10 : ℚ) - x = -((x * 10 - round (x * 10)) / 10) := by
    ring
  rw [heq, abs_neg, abs_div]
  rw [show |(10 : ℚ)| = 10 from by norm_num]
  linarith

/-- Each class probability is at most the total probability mass. -/
lemma prob_le_one (p : Fin 4 → ℚ) (hp : ∀ i, 0 ≤ p i) (hsum : ∑ i, p i = 1) (i : Fin 4) :
    p i ≤ 1 := by
  rw [← hsum]
  exact Finset.single_le_sum (fun j _ => hp j) (Finset.mem_univ i)

/-- C9.  For a probability vector that is nonnegative and sums to 1, the
classifier wrapper returns a risk index in {0,1,2,3} that is the argmax
class, a confidence equal to the argmax probability in percent rounded to
one decimal (hence in [0,100]), and a rounded per-class distribution whose
four values sum to 100 within ±0.5. -/
theorem predict_risk_contract (p : Fin 4 → ℚ) (hp : ∀ i, 0 ≤ p i)
    (hsum : ∑ i, p i = 1) :
    ((predict_risk p).risk_index = 0 ∨ (predict_risk p).risk_index = 1 ∨
      (predict_risk p).risk_index = 2 ∨ (predict_risk p).risk_index = 3) ∧
    (∀ i, p i ≤ p (argmax4 p)) ∧
    (predict_risk p).confidence = pyRound1 (p (argmax4 p) * 100) ∧
    0 ≤ (predict_risk p).confidence ∧ (predict_risk p).confidence ≤ 100 ∧
    |(∑ i, (predict_risk p).probabilities i) - 100| ≤ 1/2 := by
  have hidx : (predict_risk p).risk_index = ((argmax4 p).val : ℤ) := rfl
  have hlt : (argmax4 p).val < 4 := (argmax4 p).isLt
  have hconf : (predict_risk p).confidence = pyRound1 (p (argmax4 p) * 100) := rfl
  refine ⟨by omega, argmax4_ge p, hconf, ?_, ?_, ?_⟩
  · rw [hconf]
    exact pyRound1_nonneg _ (by have := hp (argmax4 p); linarith)
  · rw [hconf]
    exact pyRound1_le_100 _ (by have := prob_le_one p hp hsum (argmax4 p); linarith)
  · have hprob : ∀ i, (predict_risk p).probabilities i = pyRound1 (p i * 100) := fun i => rfl
    have hsplit : (∑ i, (predict_risk p).probabilities i) - 100
        = ∑ i, (pyRound1 (p i * 100) - p i * 100) := by
      rw [Finset.sum_sub_distrib]
      have h100 : ∑ i, p i * 100 = 100 := by
        rw [← Finset.sum_mul, hsum]; norm_num
      simp only [hprob]
      rw [h100]
    rw [hsplit]
    calc |∑ i, (pyRound1 (p i * 100) - p i * 100)|
        ≤ ∑ i, |pyRound1 (p i * 100) - p i * 100| := Finset.abs_sum_le_sum_abs _ _
      _ ≤ ∑ _i : Fin 4, (1/20 : ℚ) :=
          Finset.sum_le_sum (fun i _ => abs_pyRound1_sub (p i * 100))
      _ ≤ 1/2 := by simp [Finset.sum_const]; norm_num

/-- The risk cascade factors through the boolean abstraction of its five
conditions, with the fever tests supplied as decided booleans. -/
lemma riskLabel_eq_bools (s : SampleFeatures) :
    riskLabel s =
      riskLabelBools (decide (101.5 ≤ s.fever)) (decide (s.wound_status = 2))
        (decide (8 ≤ s.pain_score ∨ s.swelling = 3))
        (decide (6 ≤ s.pain_score ∨ s.swelling = 2))
        (decide (100.4 ≤ s.fever))
        (decide (s.pain_trend = 1 ∧ 5 ≤ s.pain_score))
        (decide (s.mobility ≤ 2 ∧ 14 < s.days_post_surgery)) := by
  simp only [riskLabel, riskLabelBools, Bool.or_eq_true, decide_eq_true_eq]
  split_ifs <;> first | rfl | tauto

/-- Finite-case monotonicity of the boolean risk cascade in the two fever
booleans, on inputs whose fever-free label is Low or Moderate. -/
lemma riskLabelBools_fever_mono :
    ∀ w2 hi mid tr im b1 b3 b1' b3' : Bool,
      (b1 = true → b3 = true) → (b1' = true → b3' = true) →
      (b1 = true → b1' = true) → (b3 = true → b3' = true) →
      riskLabelBools false w2 hi mid false tr im ≤ 1 →
      riskLabelBools b1 w2 hi mid b3 tr im ≤ riskLabelBools b1' w2 hi mid b3' tr im := by
  decide

/-- C1.  On the deterministic synthetic-label cascade, holding every
feature except fever fixed and keeping both fever values in [98, 104], a
higher fever never yields a strictly lower risk index, for inputs
otherwise (that is, at the neutral fever 98) labelled at the Low/Moderate
boundary. -/
theorem risk_cascade_fever_monotone (s : SampleFeatures) (f1 f2 : ℚ)
    (h98 : 98 ≤ f1) (h12 : f1 ≤ f2) (h104 : f2 ≤ 104)
    (hb : riskLabel { s with fever := 98 } ≤ 1) :
    riskLabel { s with fever := f1 } ≤ riskLabel { s with fever := f2 } := by
  have e0 : riskLabel { s with fever := 98 } =
      riskLabelBools (decide ((101.5 : ℚ) ≤ 98)) (decide (s.wound_status = 2))
        (decide (8 ≤ s.pain_score ∨ s.swelling = 3))
        (decide (6 ≤ s.pain_score ∨ s.swelling = 2))
        (decide ((100.4 : ℚ) ≤ 98))
        (decide (s.pain_trend = 1 ∧ 5 ≤ s.pain_score))
        (decide (s.mobility ≤ 2 ∧ 14 < s.days_post_surgery)) := riskLabel_eq_bools _
  have e1 : riskLabel { s with fever := f1 } =
      riskLabelBools (decide (101.5 ≤ f1)) (decide (s.wound_status = 2))
        (decide (8 ≤ s.pain_score ∨ s.swelling = 3))
        (decide (6 ≤ s.pain_score ∨ s.swelling = 2))
        (decide (100.4 ≤ f1))
        (decide (s.pain_trend = 1 ∧ 5 ≤ s.pain_score))
        (decide (s.mobility ≤ 2 ∧ 14 < s.days_post_surgery)) := riskLabel_eq_bools _
  have e2 : riskLabel { s with fever := f2 } =
      riskLabelBools (decide (101.5 ≤ f2)) (decide (s.wound_status = 2))
        (decide (8 ≤ s.pain_score ∨ s.swelling = 3))
        (decide (6 ≤ s.pain_score ∨ s.swelling = 2))
        (decide (100.4 ≤ f2))
        (decide (s.pain_trend = 1 ∧ 5 ≤ s.pain_score))
        (decide (s.mobility ≤ 2 ∧ 14 < s.days_post_surgery)) := riskLabel_eq_bools _
  rw [e0, decide_eq_false_iff_not.mpr (by norm_num : ¬((101.5 : ℚ) ≤ 98)),
    decide_eq_false_iff_not.mpr (by norm_num : ¬((100.4 : ℚ) ≤ 98))] at hb
  rw [e1, e2]
  exact riskLabelBools_fever_mono _ _ _ _ _ _ _ _ _
    (fun h => decide_eq_true (by have := of_decide_eq_true h; linarith))
    (fun h => decide_eq_true (by have := of_decide_eq_true h; linarith))
    (fun h => decide_eq_true (by have := of_decide_eq_true h; linarith))
    (fun h => decide_eq_true (by have := of_decide_eq_true h; linarith))
    hb

/-- The pathway baseline, looked up with its default 30, is always between
14 and 90. -/
lemma base_days_bounds (st : String) :
    14 ≤ (RECOVERY_BASE_DAYS.lookup st).getD 30 ∧
      (RECOVERY_BASE_DAYS.lookup st).getD 30 ≤ 90 := by
  by_cases h1 : st = "Minor Surgery"
  · subst h1; exact ⟨by decide, by decide⟩
  by_cases h2 : st = "Orthopedic Surgery"
  · subst h2; exact ⟨by decide, by decide⟩
  by_cases h3 : st = "General Discharge"
  · subst h3; exact ⟨by decide, by decide⟩
  by_cases h4 : st = "Injury Recovery"
  · subst h4; exact ⟨by decide, by decide⟩
  by_cases h5 : st = "Stroke Rehab"
  · subst h5; exact ⟨by decide, by decide⟩
  have hnone : RECOVERY_BASE_DAYS.lookup st = none := by
    simp [RECOVERY_BASE_DAYS, List.lookup, beq_eq_false_iff_ne.mpr h1,
      beq_eq_false_iff_ne.mpr h2, beq_eq_false_iff_ne.mpr h3,
      beq_eq_false_iff_ne.mpr h4, beq_eq_false_iff_ne.mpr h5]
  rw [hnone]
  exact ⟨by norm_num, by norm_num⟩

/-- The risk multiplier, looked up with its default 1.0, is always at
least 1. -/
lemma mult_ge_one (rl : String) : 1 ≤ (riskMultiplierTable.lookup rl).getD 1.0 := by
  by_cases h1 : rl = "Low"
  · subst h1; norm_num [riskMultiplierTable, List.lookup]
  by_cases h2 : rl = "Moderate"
  · subst h2
    norm_num [riskMultiplierTable, List.lookup,
      show (("Moderate" : String) == "Low") = false from by decide]
  by_cases h3 : rl = "High"
  · subst h3
    norm_num [riskMultiplierTable, List.lookup,
      show (("High" : String) == "Low") = false from by decide,
      show (("High" : String) == "Moderate") = false from by decide]
  by_cases h4 : rl = "Critical"
  · subst h4
    norm_num [riskMultiplierTable, List.lookup,
      show (("Critical" : String) == "Low") = false from by decide,
      show (("Critical" : String) == "Moderate") = false from by decide,
      show (("Critical" : String) == "High") = false from by decide]
  have hnone : riskMultiplierTable.lookup rl = none := by
    simp [riskMultiplierTable, List.lookup, beq_eq_false_iff_ne.mpr h1,
      beq_eq_false_iff_ne.mpr h2, beq_eq_false_iff_ne.mpr h3, beq_eq_false_iff_ne.mpr h4]
  rw [hnone]
  norm_num

/-- C10.  For any pathway name (all baselines lie in [14, 90], including
the unknown-pathway default 30), any risk level, a nonnegative pain score
and a mobility in [0, 10], the estimated recovery total is at least 9 —
in particular strictly positive — so the division-by-zero guard branch of
the progress computation can never be taken under these preconditions. -/
theorem estimated_total_positive (st rl : String) (days_post p m : ℤ)
    (hp : 0 ≤ p) (hm0 : 0 ≤ m) (hm10 : m ≤ 10) :
    9 ≤ (predict_recovery_days st rl days_post p m).estimated_total_days ∧
    0 < (predict_recovery_days st rl days_post p m).estimated_total_days ∧
    (predict_recovery_days st rl days_post p m).progress_pct =
      min 100 (pyRound1 (((days_post : ℚ) /
        ((predict_recovery_days st rl days_post p m).estimated_total_days : ℚ)) * 100)) := by
  obtain ⟨hb14, _⟩ := base_days_bounds st
  have hmult := mult_ge_one rl
  have hBcast : (14 : ℚ) ≤ (((RECOVERY_BASE_DAYS.lookup st).getD 30 : ℤ) : ℚ) := by
    exact_mod_cast hb14
  have hpq : (0 : ℚ) ≤ (p : ℚ) := by exact_mod_cast hp
  have hmq0 : (0 : ℚ) ≤ (m : ℚ) := by exact_mod_cast hm0
  have hmq10 : (m : ℚ) ≤ 10 := by exact_mod_cast hm10
  have hPF : (1 : ℚ) ≤ 1 + ((p : ℚ) / 10) * 0.5 := by nlinarith
  have hMF : (7/10 : ℚ) ≤ 1 - ((m : ℚ) / 10) * 0.3 := by nlinarith
  have hBM : (14 : ℚ) ≤ (((RECOVERY_BASE_DAYS.lookup st).getD 30 : ℤ) : ℚ) *
      (riskMultiplierTable.lookup rl).getD 1.0 := by nlinarith
  have hBMP : (14 : ℚ) ≤ (((RECOVERY_BASE_DAYS.lookup st).getD 30 : ℤ) : ℚ) *
      (riskMultiplierTable.lookup rl).getD 1.0 * (1 + ((p : ℚ) / 10) * 0.5) := by nlinarith
  have hprod : (49/5 : ℚ) ≤ (((RECOVERY_BASE_DAYS.lookup st).getD 30 : ℤ) : ℚ) *
      (riskMultiplierTable.lookup rl).getD 1.0 * (1 + ((p : ℚ) / 10) * 0.5) *
      (1 - ((m : ℚ) / 10) * 0.3) := by nlinarith
  have hfield : (predict_recovery_days st rl days_post p m).estimated_total_days =
      pyTrunc ((((RECOVERY_BASE_DAYS.lookup st).getD 30 : ℤ) : ℚ) *
        (riskMultiplierTable.lookup rl).getD 1.0 * (1 + ((p : ℚ) / 10) * 0.5) *
        (1 - ((m : ℚ) / 10) * 0.3)) := rfl
  have hest : 9 ≤ (predict_recovery_days st rl days_post p m).estimated_total_days := by
    rw [hfield]
    unfold pyTrunc
    rw [if_pos (by linarith)]
    exact Int.le_floor.mpr (by push_cast; linarith)
  refine ⟨hest, by omega, ?_⟩
  have hprogress : (predict_recovery_days st rl days_post p m).progress_pct =
      if 0 < (predict_recovery_days st rl days_post p m).estimated_total_days then
        min 100 (pyRound1 (((days_post : ℚ) /
          ((predict_recovery_days st rl days_post p m).estimated_total_days : ℚ)) * 100))
      else 100 := rfl
  rw [hprogress, if_pos (by omega)]

/-! ### Witnesses -/

/-- Witness for C1: a concrete all-low sample at the Low boundary, with
fever raised from 99 to 103. -/
theorem risk_cascade_fever_monotone_witness :
    (98 : ℚ) ≤ 99 ∧ (99 : ℚ) ≤ 103 ∧ (103 : ℚ) ≤ 104 ∧
    riskLabel ⟨0, 0, 98, 5, 0, 10, 5, 0, 0⟩ ≤ 1 ∧
    riskLabel ⟨0, 0, 99, 5, 0, 10, 5, 0, 0⟩ ≤ riskLabel ⟨0, 0, 103, 5, 0, 10, 5, 0, 0⟩ := by
  refine ⟨by norm_num, by norm_num, by norm_num, by norm_num [riskLabel], ?_⟩
  exact risk_cascade_fever_monotone ⟨0, 0, 98, 5, 0, 10, 5, 0, 0⟩ 99 103
    (by norm_num) (by norm_num) (by norm_num) (by norm_num [riskLabel])

/-- Witness for C2: the spec's own worked example input, with its
categorical fields recognized. -/
theorem complication_probability_spec_witness :
    ("None" ∈ (["None", "Mild", "Moderate", "Severe"] : List String)) ∧
    ("Clean/Healing" ∈ (["Clean/Healing", "Redness", "Discharge/Open"] : List String)) ∧
    ("Stable" ∈ (["Improving", "Stable", "Worsening"] : List String)) ∧
    calculate_complication_probability ⟨10, 98.6, "None", "Clean/Healing", "Stable", 8, 10⟩ =
      ⟨complicationScoreSpec ⟨10, 98.6, "None", "Clean/Healing", "Stable", 8, 10⟩,
       complicationCategorySpec
         (complicationScoreSpec ⟨10, 98.6, "None", "Clean/Healing", "Stable", 8, 10⟩)⟩ :=
  ⟨by decide, by decide, by decide,
   complication_probability_spec.1 _ (by decide) (by decide) (by decide)⟩

/-- Witness for C6: the worked example has a positive estimated total, so
the guarded progress branch is exercised concretely. -/
theorem predict_recovery_days_spec_witness :
    0 < estimatedTotalSpec "Orthopedic Surgery" "Low" 0 10 ∧
    (predict_recovery_days "Orthopedic Surgery" "Low" 21 0 10).progress_pct =
      min 100 (pyRound1 (100 * ((21 : ℤ) : ℚ)
        / ((estimatedTotalSpec "Orthopedic Surgery" "Low" 0 10 : ℤ) : ℚ))) := by
  have h : 0 < estimatedTotalSpec "Orthopedic Surgery" "Low" 0 10 := by
    simp only [estimatedTotalSpec, RECOVERY_BASE_DAYS, riskMultiplierTable,
      List.lookup, String.reduceBEq]
    norm_num [pyTrunc]
  exact ⟨h, (predict_recovery_days_spec.1 "Orthopedic Surgery" "Low" 21 0 10).2.2.1 h⟩

/-- Witness for C8: the string "Garbage" is recognized by no code table
and resolves to each neutral default. -/
theorem feature_encoding_total_witness :
    ("Garbage" ∉ (["None", "Mild", "Moderate", "Severe"] : List String)) ∧
    (swelling_map.lookup "Garbage").getD 0 = 0 ∧
    ("Garbage" ∉ knownPathways) ∧
    (surgery_map.lookup "Garbage").getD 2 = 2 :=
  ⟨by decide, feature_encoding_total.1 "Garbage" (by decide),
   by decide, feature_encoding_total.2.2.2.1 "Garbage" (by decide)⟩

/-- Witness for C9: a concrete probability vector summing to 1. -/
theorem predict_risk_contract_witness :
    (∑ i, (![(1 : ℚ)/10, 1/5, 3/10, 2/5] : Fin 4 → ℚ) i = 1) ∧
    0 ≤ (predict_risk ![(1 : ℚ)/10, 1/5, 3/10, 2/5]).confidence ∧
    (predict_risk ![(1 : ℚ)/10, 1/5, 3/10, 2/5]).confidence ≤ 100 ∧
    |(∑ i, (predict_risk ![(1 : ℚ)/10, 1/5, 3/10, 2/5]).probabilities i) - 100| ≤ 1/2 := by
  have hs : ∑ i, (![(1 : ℚ)/10, 1/5, 3/10, 2/5] : Fin 4 → ℚ) i = 1 := by
    simp [Fin.sum_univ_four]
    norm_num
  obtain ⟨-, -, -, h1, h2, h3⟩ := predict_risk_contract ![(1 : ℚ)/10, 1/5, 3/10, 2/5]
    (by intro i; fin_cases i <;> norm_num) hs
  exact ⟨hs, h1, h2, h3⟩

/-- Witness for C10: the smallest baseline with full mobility still never
reaches the division-by-zero guard. -/
theorem estimated_total_positive_witness :
    (0 : ℤ) ≤ 0 ∧ (0 : ℤ) ≤ 10 ∧ (10 : ℤ) ≤ 10 ∧
    9 ≤ (predict_recovery_days "Minor Surgery" "Low" 0 0 10).estimated_total_days ∧
    0 < (predict_recovery_days "Minor Surgery" "Low" 0 0 10).estimated_total_days := by
  obtain ⟨h9, hpos, -⟩ := estimated_total_positive "Minor Surgery" "Low" 0 0 10
    (by norm_num) (by norm_num) (by norm_num)
  exact ⟨by norm_num, by norm_num, by norm_num, h9, hpos⟩

end ReVita
